import Mathlib

/-!
Verification of `src/asyncOperations.js`: three asynchronous file-reading
styles (callback, promise, async/await) plus a sequential multi-file reader.

The filesystem is modelled as a partial map from filenames to contents;
an asynchronous read is modelled by its settled outcome, an `Except` value
(success with the content, or failure with the error message).  Console
logging is irrelevant to the claims and is dropped; for the demonstrator
functions we additionally record the trace of filenames read, so that
claims about reads that do or do not happen after a failure are statable.
-/

/-- A filesystem: maps a filename to its content, `none` when missing. -/
abbrev FS : Type := String → Option String

/-- The error message Node attaches to a failed read of `filename`. -/
def errorMessage (filename : String) : String :=
  "ENOENT: no such file or directory, open " ++ filename

/-- Model of `fs.readFile(filename, 'utf8')`: resolves with the content when the
file exists, rejects with the I/O error message otherwise. -/
def nodeReadFile (fs : FS) (filename : String) : Except String String :=
  match fs filename with
  | some content => Except.ok content
  | none => Except.error (errorMessage filename)

/-- Embedding of `readFileWithCallback` (src/asyncOperations.js lines 14-23): performs
the read and invokes `callback` with `(err, null)` on failure or
`(null, data)` on success.  The callback is a parameter, so the result is
whatever the single callback invocation returns. -/
def readFileWithCallback {α : Type} (fs : FS) (filename : String)
    (callback : Option String → Option String → α) : α :=
  match nodeReadFile fs filename with
  | Except.error err => callback (some err) none
  | Except.ok data => callback none (some data)

/-- Model of `p.then(f)` on a settled promise: applies `f` on fulfillment,
propagates the rejection otherwise. -/
def promiseThen {α β : Type} (p : Except String α) (f : α → Except String β) :
    Except String β :=
  match p with
  | Except.ok a => f a
  | Except.error e => Except.error e

/-- Model of `p.catch(h)` on a settled promise: applies `h` to the rejection
reason, passes a fulfillment through. -/
def promiseCatch {α : Type} (p : Except String α) (h : String → Except String α) :
    Except String α :=
  match p with
  | Except.ok a => Except.ok a
  | Except.error e => h e

/-- Embedding of `readFileWithPromises` (lines 52-63): `fs.readFile(...).then(data =>
data).catch(error => { throw error })` — the handlers only log, so the
read outcome passes through unchanged. -/
def readFileWithPromises (fs : FS) (filename : String) : Except String String :=
  promiseCatch
    (promiseThen (nodeReadFile fs filename) (fun data => Except.ok data))
    (fun error => Except.error error)

/-- Embedding of `readFileWithAsyncAwait` (lines 92-102): awaits the read, returns the
data; the catch block logs and then re-throws the original error. -/
def readFileWithAsyncAwait (fs : FS) (filename : String) : Except String String :=
  match nodeReadFile fs filename with
  | Except.ok data => Except.ok data
  | Except.error error => Except.error error

/-- A record pushed by `readMultipleFilesSequentially`.  JavaScript objects
have optional fields, so each field an object may or may not carry is an
`Option`. -/
structure ReadRecord where
  filename : String
  content : Option String
  length : Option Nat
  preview : Option String
  error : Option String
deriving Repr, DecidableEq

/-- The success record pushed at line 141-146: filename, content, its
character count, and a preview of the first 60 characters with a literal
ellipsis appended. -/
def successRecord (filename content : String) : ReadRecord :=
  { filename := filename
    content := some content
    length := some content.length
    preview := some (content.take 60 ++ "...")
    error := none }

/-- The error record pushed at line 150-153: filename and error message. -/
def errorRecord (filename errMsg : String) : ReadRecord :=
  { filename := filename
    content := none
    length := none
    preview := none
    error := some errMsg }

/-- One iteration of the loop body of `readMultipleFilesSequentially`
(lines 139-154): try the read; push a success record on success, an error
record on failure. -/
def processFile (fs : FS) (filename : String) : ReadRecord :=
  match nodeReadFile fs filename with
  | Except.ok content => successRecord filename content
  | Except.error e => errorRecord filename e

/-- Embedding of `readMultipleFilesSequentially` (lines 128-158): iterates the list in
order, pushing exactly one record per filename, and returns the
accumulated list after the last entry. -/
def readMultipleFilesSequentially (fs : FS) (fileList : List String) :
    List ReadRecord :=
  fileList.map (processFile fs)

/-- A promise computation together with the trace of filenames whose read
it performed, in order. -/
abbrev Traced (α : Type) : Type := List String × Except String α

/-- Version of `readFileWithPromises` with its read recorded in the trace. -/
def readFileWithPromisesTraced (fs : FS) (filename : String) : Traced String :=
  ([filename], readFileWithPromises fs filename)

/-- Model of `.then` on a traced promise: the continuation (and its reads) run only
on fulfillment; a rejection skips the continuation and keeps the trace. -/
def tracedThen {α β : Type} (m : Traced α) (k : α → Traced β) : Traced β :=
  match m with
  | (t, Except.error e) => (t, Except.error e)
  | (t, Except.ok a) =>
      let r := k a
      (t ++ r.1, r.2)

/-- Model of `.catch` on a traced promise: the handler runs only on rejection. -/
def tracedCatch {α : Type} (m : Traced α) (h : String → Traced α) : Traced α :=
  match m with
  | (t, Except.ok a) => (t, Except.ok a)
  | (t, Except.error e) =>
      let r := h e
      (t ++ r.1, r.2)

/-- Embedding of `demonstratePromises` (lines 65-86): chains reads of file1, file2,
file3, each subsequent read performed inside the previous `.then` handler;
the final `.catch` only logs the error. -/
def demonstratePromises (fs : FS) : Traced Unit :=
  tracedCatch
    (tracedThen (readFileWithPromisesTraced fs "file1.txt") (fun _data1 =>
      tracedThen (readFileWithPromisesTraced fs "file2.txt") (fun _data2 =>
        tracedThen (readFileWithPromisesTraced fs "file3.txt") (fun _data3 =>
          ([], Except.ok ())))))
    (fun _error => ([], Except.ok ()))

/-- Version of `readFileWithCallback` with its read recorded in the trace of the
callback result. -/
def readFileWithCallbackTraced {α : Type} (fs : FS) (filename : String)
    (callback : Option String → Option String → List String × α) :
    List String × α :=
  let r := readFileWithCallback fs filename callback
  (filename :: r.1, r.2)

/-- Embedding of `demonstrateCallbacks` (lines 25-46): reads file1; on error the
callback returns without reading anything further; on success the nested
callback reads file2. -/
def demonstrateCallbacks (fs : FS) : List String × Unit :=
  readFileWithCallbackTraced fs "file1.txt" (fun err _data =>
    match err with
    | some _ => ([], ())
    | none =>
        readFileWithCallbackTraced fs "file2.txt" (fun _err2 _data2 => ([], ())))

/-- The try block of `demonstrateAsyncAwait` (lines 108-118): awaits the
three reads in sequence; a raised error aborts the remaining awaits. -/
def asyncAwaitBody (fs : FS) : Except String Unit := do
  let _data1 ← readFileWithAsyncAwait fs "file1.txt"
  let _data2 ← readFileWithAsyncAwait fs "file2.txt"
  let _data3 ← readFileWithAsyncAwait fs "file3.txt"
  pure ()

/-- Embedding of `demonstrateAsyncAwait` (lines 104-122): the catch block logs the
error and does not re-throw, so the function always returns normally. -/
def demonstrateAsyncAwait (fs : FS) : Except String Unit :=
  match asyncAwaitBody fs with
  | Except.ok u => Except.ok u
  | Except.error _error => Except.ok ()

/-- The list of callback invocations `readFileWithCallback` performs, each
recorded as the pair of arguments it was called with. -/
def callbackInvocations (fs : FS) (filename : String) :
    List (Option String × Option String) :=
  readFileWithCallback fs filename (fun err data => [(err, data)])

/-- Success shape: content, length and preview present, no error field. -/
def isSuccessShape (r : ReadRecord) : Prop :=
  (∃ c, r.content = some c) ∧ (∃ n, r.length = some n) ∧
    (∃ p, r.preview = some p) ∧ r.error = none

/-- Error shape: an error field and none of content, length, preview. -/
def isErrorShape (r : ReadRecord) : Prop :=
  r.content = none ∧ r.length = none ∧ r.preview = none ∧
    ∃ e, r.error = some e

/-- Concrete filesystem with one readable file of 11 characters. -/
def fsHello : FS := fun f => if f = "file1.txt" then some "hello world" else none

/-- Concrete filesystem where file1 and file3 exist but file2 is missing. -/
def fsGap : FS := fun f =>
  if f = "file1.txt" then some "alpha"
  else if f = "file3.txt" then some "gamma"
  else none

/-- Concrete filesystem with no readable files at all. -/
def fsEmpty : FS := fun _ => none

set_option maxRecDepth 4096

theorem nodeReadFile_eq_ok {fs : FS} {f c : String} (h : fs f = some c) :
    nodeReadFile fs f = Except.ok c := by
  simp [nodeReadFile, h]

theorem nodeReadFile_eq_error {fs : FS} {f : String} (h : fs f = none) :
    nodeReadFile fs f = Except.error (errorMessage f) := by
  simp [nodeReadFile, h]

theorem processFile_eq_success {fs : FS} {f c : String} (h : fs f = some c) :
    processFile fs f = successRecord f c := by
  simp [processFile, nodeReadFile_eq_ok h]

theorem processFile_eq_error {fs : FS} {f : String} (h : fs f = none) :
    processFile fs f = errorRecord f (errorMessage f) := by
  simp [processFile, nodeReadFile_eq_error h]

theorem processFile_filename (fs : FS) (f : String) :
    (processFile fs f).filename = f := by
  unfold processFile
  cases h : nodeReadFile fs f with
  | ok c => simp [successRecord]
  | error e => simp [errorRecord]

theorem rmfs_length (fs : FS) (l : List String) :
    (readMultipleFilesSequentially fs l).length = l.length := by
  simp [readMultipleFilesSequentially]

theorem rmfs_getElem? (fs : FS) (l : List String) (i : Nat) :
    (readMultipleFilesSequentially fs l)[i]? = (l[i]?).map (processFile fs) :=
  List.getElem?_map (processFile fs) l i

theorem readFileWithPromises_eq_ok {fs : FS} {f c : String} (h : fs f = some c) :
    readFileWithPromises fs f = Except.ok c := by
  simp [readFileWithPromises, promiseThen, promiseCatch, nodeReadFile_eq_ok h]

theorem readFileWithPromises_eq_error {fs : FS} {f : String} (h : fs f = none) :
    readFileWithPromises fs f = Except.error (errorMessage f) := by
  simp [readFileWithPromises, promiseThen, promiseCatch, nodeReadFile_eq_error h]

theorem tracedThen_error {α β : Type} (t : List String) (e : String)
    (k : α → Traced β) : tracedThen (t, Except.error e) k = (t, Except.error e) :=
  rfl

theorem tracedThen_ok {α β : Type} (t : List String) (a : α) (k : α → Traced β) :
    tracedThen (t, Except.ok a) k = (t ++ (k a).1, (k a).2) :=
  rfl

theorem tracedCatch_ok {α : Type} (t : List String) (a : α)
    (h : String → Traced α) : tracedCatch (t, Except.ok a) h = (t, Except.ok a) :=
  rfl

theorem tracedCatch_error {α : Type} (t : List String) (e : String)
    (h : String → Traced α) :
    tracedCatch (t, Except.error e) h = (t ++ (h e).1, (h e).2) :=
  rfl

/-- C1 counterexample: the claim says the preview equals the first 60
characters of the content (here, the full 11-character content
"hello world"), but the record the code produces carries the preview with
a literal "..." appended, so the claimed equality fails at this input. -/
theorem C1_counterexample :
    ¬ ((readMultipleFilesSequentially fsHello ["file1.txt"]).map ReadRecord.preview =
        [some (("hello world" : String).take 60)]) := by
  decide

/-- C1 (amended): for a list of filenames that all reference readable
files, `readMultipleFilesSequentially` returns one success record per
file, whose `length` is the exact character count of the content and
whose `preview` is the first 60 characters of the content (or the full
content if shorter) with the literal string "..." appended. -/
theorem C1_success_records (fs : FS) (l : List String)
    (h : ∀ f ∈ l, ∃ c, fs f = some c) :
    (readMultipleFilesSequentially fs l).length = l.length ∧
    ∀ (i : Nat) (f : String), l[i]? = some f →
      ∃ c, fs f = some c ∧
        (readMultipleFilesSequentially fs l)[i]? =
          some ({ filename := f, content := some c, length := some c.length,
                  preview := some (c.take 60 ++ "..."), error := none } : ReadRecord) := by
  refine ⟨rmfs_length fs l, ?_⟩
  intro i f hf
  obtain ⟨c, hc⟩ := h f (List.getElem?_mem hf)
  exact ⟨c, hc, by simp [rmfs_getElem?, hf, processFile_eq_success hc, successRecord]⟩

/-- Witness for C1 (amended) at a filesystem holding one 11-character file. -/
theorem C1_success_records_witness :
    (readMultipleFilesSequentially fsHello ["file1.txt"]).length =
        (["file1.txt"] : List String).length ∧
    ∀ (i : Nat) (f : String), (["file1.txt"] : List String)[i]? = some f →
      ∃ c, fsHello f = some c ∧
        (readMultipleFilesSequentially fsHello ["file1.txt"])[i]? =
          some ({ filename := f, content := some c, length := some c.length,
                  preview := some (c.take 60 ++ "..."), error := none } : ReadRecord) :=
  C1_success_records fsHello ["file1.txt"] (by
    intro f hf
    simp only [List.mem_singleton] at hf
    exact ⟨"hello world", by simp [fsHello, hf]⟩)

/-- C2: a missing entry yields an error record at its position, the loop
still emits one record per input entry and populates every position, and
for a [valid, missing, valid] triple the output is exactly
[success, error, success] in input order. -/
theorem C2_error_record_continues (fs : FS) (l : List String) (i : Nat)
    (f v1 m v2 c1 c2 : String)
    (hf : l[i]? = some f) (hmiss : fs f = none)
    (hv1 : fs v1 = some c1) (hm : fs m = none) (hv2 : fs v2 = some c2) :
    (readMultipleFilesSequentially fs l)[i]? =
      some (errorRecord f (errorMessage f)) ∧
    (readMultipleFilesSequentially fs l).length = l.length ∧
    (∀ j, j < l.length → (readMultipleFilesSequentially fs l)[j]? ≠ none) ∧
    readMultipleFilesSequentially fs [v1, m, v2] =
      [successRecord v1 c1, errorRecord m (errorMessage m),
       successRecord v2 c2] := by
  refine ⟨?_, rmfs_length fs l, ?_, ?_⟩
  · simp [rmfs_getElem?, hf, processFile_eq_error hmiss]
  · intro j hj
    rw [rmfs_getElem?]
    cases hjv : l[j]? with
    | none =>
        rw [List.getElem?_eq_none_iff] at hjv
        omega
    | some g => simp
  · simp [readMultipleFilesSequentially, processFile_eq_success hv1,
          processFile_eq_error hm, processFile_eq_success hv2]

/-- Witness for C2 at a filesystem where file2 is missing between two
readable files. -/
theorem C2_error_record_continues_witness :
    (readMultipleFilesSequentially fsGap ["file1.txt", "file2.txt", "file3.txt"])[1]? =
      some (errorRecord "file2.txt" (errorMessage "file2.txt")) ∧
    (readMultipleFilesSequentially fsGap ["file1.txt", "file2.txt", "file3.txt"]).length =
      (["file1.txt", "file2.txt", "file3.txt"] : List String).length ∧
    (∀ j, j < (["file1.txt", "file2.txt", "file3.txt"] : List String).length →
      (readMultipleFilesSequentially fsGap
        ["file1.txt", "file2.txt", "file3.txt"])[j]? ≠ none) ∧
    readMultipleFilesSequentially fsGap ["file1.txt", "file2.txt", "file3.txt"] =
      [successRecord "file1.txt" "alpha",
       errorRecord "file2.txt" (errorMessage "file2.txt"),
       successRecord "file3.txt" "gamma"] :=
  C2_error_record_continues fsGap ["file1.txt", "file2.txt", "file3.txt"] 1
    "file2.txt" "file1.txt" "file2.txt" "file3.txt" "alpha" "gamma"
    (by decide) (by decide) (by decide) (by decide) (by decide)

/-- C3: for a readable file, the callback-style reader (second callback
argument), the promise-style reader (resolved value) and the
async/await-style reader (returned value) all yield the identical
content. -/
theorem C3_styles_agree (fs : FS) (f c : String) (h : fs f = some c) :
    readFileWithCallback fs f (fun _err data => data) = some c ∧
    readFileWithPromises fs f = Except.ok c ∧
    readFileWithAsyncAwait fs f = Except.ok c := by
  refine ⟨?_, readFileWithPromises_eq_ok h, ?_⟩ <;>
    simp [readFileWithCallback, readFileWithAsyncAwait, nodeReadFile_eq_ok h]

/-- Witness for C3 at a filesystem holding "hello world" in file1.txt. -/
theorem C3_styles_agree_witness :
    readFileWithCallback fsHello "file1.txt" (fun _err data => data) =
      some "hello world" ∧
    readFileWithPromises fsHello "file1.txt" = Except.ok "hello world" ∧
    readFileWithAsyncAwait fsHello "file1.txt" = Except.ok "hello world" :=
  C3_styles_agree fsHello "file1.txt" "hello world" (by decide)

/-- C4: on a missing file the callback-style reader invokes its callback
with the error message and a null data slot (so the error travels only
through the callback channel), the promise-style reader rejects with the
original error, and the async/await-style reader re-raises the original
error; each embedded reader is a total function, so no outcome escapes
its channel. -/
theorem C4_error_channels (fs : FS) (f : String) (h : fs f = none) :
    (∀ (α : Type) (cb : Option String → Option String → α),
        readFileWithCallback fs f cb = cb (some (errorMessage f)) none) ∧
    readFileWithPromises fs f = Except.error (errorMessage f) ∧
    readFileWithAsyncAwait fs f = Except.error (errorMessage f) := by
  refine ⟨fun α cb => ?_, readFileWithPromises_eq_error h, ?_⟩ <;>
    simp [readFileWithCallback, readFileWithAsyncAwait, nodeReadFile_eq_error h]

/-- Witness for C4 at the empty filesystem. -/
theorem C4_error_channels_witness :
    (∀ (α : Type) (cb : Option String → Option String → α),
        readFileWithCallback fsEmpty "file1.txt" cb =
          cb (some (errorMessage "file1.txt")) none) ∧
    readFileWithPromises fsEmpty "file1.txt" =
      Except.error (errorMessage "file1.txt") ∧
    readFileWithAsyncAwait fsEmpty "file1.txt" =
      Except.error (errorMessage "file1.txt") :=
  C4_error_channels fsEmpty "file1.txt" rfl

/-- C5: every readable entry yields a success record whose preview is the
first 60 characters of the content with the literal "..." appended,
whether or not truncation occurred; on the 11-character content
"hello world" this gives length 11 and preview "hello world...", as the
witness evaluates. -/
theorem C5_preview_always_ellipsis (fs : FS) (l : List String) (i : Nat)
    (f c : String) (hf : l[i]? = some f) (hc : fs f = some c) :
    (readMultipleFilesSequentially fs l)[i]? =
      some ({ filename := f, content := some c, length := some c.length,
              preview := some (c.take 60 ++ "..."), error := none } : ReadRecord) := by
  simp [rmfs_getElem?, hf, processFile_eq_success hc, successRecord]

/-- Witness for C5: the "hello world" example, with the length and the
preview evaluated to their literal values. -/
theorem C5_preview_always_ellipsis_witness :
    ("hello world" : String).length = 11 ∧
    ("hello world" : String).take 60 ++ "..." = "hello world..." ∧
    (readMultipleFilesSequentially fsHello ["file1.txt"])[0]? =
      some ({ filename := "file1.txt", content := some "hello world",
              length := some ("hello world" : String).length,
              preview := some (("hello world" : String).take 60 ++ "..."),
              error := none } : ReadRecord) :=
  ⟨by decide, by decide,
    C5_preview_always_ellipsis fsHello ["file1.txt"] 0 "file1.txt" "hello world"
      (by decide) (by decide)⟩

/-- C6: for any mix of readable and missing files, the output has exactly
one record per input entry, the i-th record carries the i-th input
filename, and the loop runs to completion regardless of failures. -/
theorem C6_one_record_per_entry (fs : FS) (l : List String) :
    (readMultipleFilesSequentially fs l).length = l.length ∧
    ∀ (i : Nat) (f : String), l[i]? = some f →
      ∃ r, (readMultipleFilesSequentially fs l)[i]? = some r ∧ r.filename = f := by
  refine ⟨rmfs_length fs l, ?_⟩
  intro i f hf
  exact ⟨processFile fs f, by simp [rmfs_getElem?, hf], processFile_filename fs f⟩

/-- Witness for C6 at a filesystem with a missing middle file. -/
theorem C6_one_record_per_entry_witness :
    (readMultipleFilesSequentially fsGap
        ["file1.txt", "file2.txt", "file3.txt"]).length =
      (["file1.txt", "file2.txt", "file3.txt"] : List String).length ∧
    ∀ (i : Nat) (f : String),
      (["file1.txt", "file2.txt", "file3.txt"] : List String)[i]? = some f →
      ∃ r, (readMultipleFilesSequentially fsGap
          ["file1.txt", "file2.txt", "file3.txt"])[i]? = some r ∧
        r.filename = f :=
  C6_one_record_per_entry fsGap ["file1.txt", "file2.txt", "file3.txt"]

/-- C7: in the promise demonstrator, a failure on file1 means file2 and
file3 are never read, and a failure on file2 (after file1 succeeds) means
file3 is never read; the chain always settles fulfilled because the final
catch absorbs the error, so nothing propagates beyond the demonstrator.
In the callback demonstrator, a failure on file1 means file2 is never
read. -/
theorem C7_chain_abandons (fs : FS) :
    (fs "file1.txt" = none →
      (demonstratePromises fs).1 = ["file1.txt"] ∧
      "file2.txt" ∉ (demonstratePromises fs).1 ∧
      "file3.txt" ∉ (demonstratePromises fs).1) ∧
    (∀ c1, fs "file1.txt" = some c1 → fs "file2.txt" = none →
      (demonstratePromises fs).1 = ["file1.txt", "file2.txt"] ∧
      "file3.txt" ∉ (demonstratePromises fs).1) ∧
    (demonstratePromises fs).2 = Except.ok () ∧
    (fs "file1.txt" = none → (demonstrateCallbacks fs).1 = ["file1.txt"]) := by
  refine ⟨?_, ?_, ?_, ?_⟩
  · intro h1
    simp [demonstratePromises, readFileWithPromisesTraced,
          readFileWithPromises_eq_error h1, tracedThen_error, tracedCatch_error]
  · intro c1 h1 h2
    simp [demonstratePromises, readFileWithPromisesTraced,
          readFileWithPromises_eq_ok h1, readFileWithPromises_eq_error h2,
          tracedThen_ok, tracedThen_error, tracedCatch_error]
  · cases h1 : fs "file1.txt" with
    | none =>
        simp [demonstratePromises, readFileWithPromisesTraced,
              readFileWithPromises_eq_error h1, tracedThen_error, tracedCatch_error]
    | some c1 =>
        cases h2 : fs "file2.txt" with
        | none =>
            simp [demonstratePromises, readFileWithPromisesTraced,
                  readFileWithPromises_eq_ok h1, readFileWithPromises_eq_error h2,
                  tracedThen_ok, tracedThen_error, tracedCatch_error]
        | some c2 =>
            cases h3 : fs "file3.txt" with
            | none =>
                simp [demonstratePromises, readFileWithPromisesTraced,
                      readFileWithPromises_eq_ok h1, readFileWithPromises_eq_ok h2,
                      readFileWithPromises_eq_error h3, tracedThen_ok,
                      tracedThen_error, tracedCatch_error]
            | some c3 =>
                simp [demonstratePromises, readFileWithPromisesTraced,
                      readFileWithPromises_eq_ok h1, readFileWithPromises_eq_ok h2,
                      readFileWithPromises_eq_ok h3, tracedThen_ok, tracedCatch_ok]
  · intro h1
    simp [demonstrateCallbacks, readFileWithCallbackTraced, readFileWithCallback,
          nodeReadFile_eq_error h1]

/-- Witness for C7 at the empty filesystem: only file1 is ever read by
either demonstrator and the promise chain still settles fulfilled. -/
theorem C7_chain_abandons_witness :
    (demonstratePromises fsEmpty).1 = ["file1.txt"] ∧
    (demonstratePromises fsEmpty).2 = Except.ok () ∧
    (demonstrateCallbacks fsEmpty).1 = ["file1.txt"] :=
  ⟨((C7_chain_abandons fsEmpty).1 rfl).1,
   (C7_chain_abandons fsEmpty).2.2.1,
   (C7_chain_abandons fsEmpty).2.2.2 rfl⟩

/-- C8: every call of the callback-style reader invokes the supplied
callback exactly once — with the error message and a null data slot on
failure, or a null error and the content on success, never zero times and
never twice. -/
theorem C8_callback_exactly_once (fs : FS) (f : String) :
    (callbackInvocations fs f).length = 1 ∧
    (fs f = none →
      callbackInvocations fs f = [(some (errorMessage f), none)]) ∧
    (∀ c, fs f = some c → callbackInvocations fs f = [(none, some c)]) := by
  refine ⟨?_, ?_, ?_⟩
  · unfold callbackInvocations readFileWithCallback
    cases h : nodeReadFile fs f <;> simp
  · intro h
    simp [callbackInvocations, readFileWithCallback, nodeReadFile_eq_error h]
  · intro c h
    simp [callbackInvocations, readFileWithCallback, nodeReadFile_eq_ok h]

/-- Witness for C8 at two concrete calls: one on a readable file, one on
a missing file. -/
theorem C8_callback_exactly_once_witness :
    ((callbackInvocations fsHello "file1.txt").length = 1 ∧
      (fsHello "file1.txt" = none →
        callbackInvocations fsHello "file1.txt" =
          [(some (errorMessage "file1.txt"), none)]) ∧
      (∀ c, fsHello "file1.txt" = some c →
        callbackInvocations fsHello "file1.txt" = [(none, some c)])) ∧
    (callbackInvocations fsEmpty "file2.txt").length = 1 :=
  ⟨C8_callback_exactly_once fsHello "file1.txt",
   (C8_callback_exactly_once fsEmpty "file2.txt").1⟩

/-- C9: every record produced by the sequential reader has exactly one of
the two shapes — success (content, length and preview present, no error
field) or error (error present, none of the others) — never a mixture. -/
theorem C9_record_shapes (fs : FS) (l : List String) :
    ∀ r ∈ readMultipleFilesSequentially fs l,
      (isSuccessShape r ∧ ¬ isErrorShape r) ∨
        (isErrorShape r ∧ ¬ isSuccessShape r) := by
  intro r hr
  rw [readMultipleFilesSequentially, List.mem_map] at hr
  obtain ⟨f, _hf, rfl⟩ := hr
  unfold processFile
  cases h : nodeReadFile fs f with
  | ok c =>
      left
      refine ⟨⟨⟨c, rfl⟩, ⟨c.length, rfl⟩, ⟨c.take 60 ++ "...", rfl⟩, rfl⟩, ?_⟩
      intro hw
      obtain ⟨hc, _⟩ := hw
      simp [successRecord] at hc
  | error e =>
      right
      refine ⟨⟨rfl, rfl, rfl, ⟨e, rfl⟩⟩, ?_⟩
      intro hw
      obtain ⟨⟨c, hc⟩, _⟩ := hw
      simp [errorRecord] at hc

/-- Witness for C9 at a concrete success record of the gap filesystem. -/
theorem C9_record_shapes_witness :
    (isSuccessShape (successRecord "file1.txt" "alpha") ∧
      ¬ isErrorShape (successRecord "file1.txt" "alpha")) ∨
    (isErrorShape (successRecord "file1.txt" "alpha") ∧
      ¬ isSuccessShape (successRecord "file1.txt" "alpha")) :=
  C9_record_shapes fsGap ["file1.txt"] (successRecord "file1.txt" "alpha")
    (by simp [readMultipleFilesSequentially,
              processFile_eq_success (show fsGap "file1.txt" = some "alpha" by decide)])

/-- C10: the async/await demonstrator always returns normally, even when
reads fail: its catch block absorbs every error raised by the awaited
reads and does not re-raise. -/
theorem C10_always_fulfills (fs : FS) :
    demonstrateAsyncAwait fs = Except.ok () := by
  unfold demonstrateAsyncAwait
  cases h : asyncAwaitBody fs with
  | ok u => cases u; rfl
  | error e => rfl
